import Mathlib

/-!
Shallow embedding of the two user-space COW test programs of the repository
(`src/test4.c` and `src/testcow.c`).  Each program is a linear script that
calls external primitives (`getNumFreePages`, `malloc`, `fork`, `sleep`,
`wait`, `exit`, `printf`).  We model one process's run of `main` as a function
from an environment — the results the external calls return to this process —
to the list of observable events the process performs, in program order.
-/

namespace CowTests

/-- Messages printed by the two programs, one constructor per distinct
`printf` format, carrying the integer argument where the format has `%d`.
`Msg.render` below gives the exact text, matching the C string literals. -/
inductive Msg where
  | initialFreePages (n : Int)
  | memAllocFailed
  | freePagesAfterAlloc (n : Int)
  | forkFailed
  | t4FreePagesAfterForkChild (n : Int)
  | childModified
  | t4FreePagesAfterModChild (n : Int)
  | t4CowChild
  | t4WrongChild
  | t4FreePagesAfterForkParent (n : Int)
  | parentModified
  | t4FreePagesAfterModParent (n : Int)
  | t4CowParent
  | t4WrongParent
  | tcFreePagesAfterFork (n : Int)
  | tcFreePagesAfterMod (n : Int)
  | tcCow
  | tcWrong
  deriving DecidableEq, Repr

/-- Exact text of each message, as in the C sources (`printf(1, ...)`; the
`%d` is instantiated with the carried integer). -/
def Msg.render : Msg → String
  | .initialFreePages n => "Initial free pages: " ++ toString n ++ "\n"
  | .memAllocFailed => "Memory allocation failed\n"
  | .freePagesAfterAlloc n => "Free pages after allocation: " ++ toString n ++ "\n"
  | .forkFailed => "Fork failed\n"
  | .t4FreePagesAfterForkChild n => "Free pages after fork (child): " ++ toString n ++ "\n"
  | .childModified => "Child process modified memory.\n"
  | .t4FreePagesAfterModChild n => "Free pages after modification (child): " ++ toString n ++ "\n"
  | .t4CowChild => "COW mechanism working! No new page was allocated to write (child).\n"
  | .t4WrongChild => "Something went wrong (child).\n"
  | .t4FreePagesAfterForkParent n => "Free pages after fork (parent): " ++ toString n ++ "\n"
  | .parentModified => "Parent process modified memory.\n"
  | .t4FreePagesAfterModParent n => "Free pages after modification (parent): " ++ toString n ++ "\n"
  | .t4CowParent => "COW mechanism working! A new page was allocated after write (parent).\n"
  | .t4WrongParent => "Something went wrong, no new page allocated after write (parent).\n"
  | .tcFreePagesAfterFork n => "Free pages after fork: " ++ toString n ++ "\n"
  | .tcFreePagesAfterMod n => "Free pages after modification: " ++ toString n ++ "\n"
  | .tcCow => "COW mechanism working! A new page was allocated after write.\n"
  | .tcWrong => "Something went wrong, no new page allocated after write.\n"

/-- Observable events performed by a process: external calls with the result
they returned, one-byte stores into the malloc'd buffer, and prints.
`exit` carries no status, as the xv6 `exit()` called by the programs takes
no argument. -/
inductive Event where
  | getNumFreePages (result : Int)
  | print (msg : Msg)
  | malloc (size : Nat) (result : Nat)
  | fork (result : Int)
  | sleep (ticks : Int)
  | store (ptr : Nat) (offset : Nat) (val : Char)
  | wait
  | exit
  deriving DecidableEq, Repr

/-- Environment of one process's run: the values the external calls return.
`freePages i` is the result of the i-th `getNumFreePages()` call this
process makes (0-based), `mallocRet` the pointer returned by
`malloc(4096)` (0 signals failure), and `forkRet` the value of `fork()`
as seen by this process (negative: failure; 0: this is the child;
positive: this is the parent and the value is the child pid). -/
structure Env where
  freePages : Nat → Int
  mallocRet : Nat
  forkRet : Int

/-- Trace of `main` of `src/test4.c`, translated statement by statement.
The child branch records its fourth measurement after the store, as in the
source; the parent branch ends with `wait()` and falls through to the final
`exit()`. -/
def test4_main (env : Env) : List Event :=
  let initial_free_pages := env.freePages 0
  let parent_memory := env.mallocRet
  Event.getNumFreePages initial_free_pages ::
  Event.print (Msg.initialFreePages initial_free_pages) ::
  Event.malloc 4096 parent_memory ::
  if parent_memory = 0 then
    [Event.print Msg.memAllocFailed, Event.exit]
  else
    let free_pages_after_alloc := env.freePages 1
    let pid := env.forkRet
    Event.getNumFreePages free_pages_after_alloc ::
    Event.print (Msg.freePagesAfterAlloc free_pages_after_alloc) ::
    Event.fork pid ::
    if pid < 0 then
      [Event.print Msg.forkFailed, Event.exit]
    else if pid = 0 then
      let free_pages_after_fork := env.freePages 2
      let free_pages_after_modification := env.freePages 3
      Event.getNumFreePages free_pages_after_fork ::
      Event.sleep 10 ::
      Event.print (Msg.t4FreePagesAfterForkChild free_pages_after_fork) ::
      Event.store parent_memory 0 'C' ::
      Event.print Msg.childModified ::
      Event.getNumFreePages free_pages_after_modification ::
      Event.print (Msg.t4FreePagesAfterModChild free_pages_after_modification) ::
      (if free_pages_after_modification = free_pages_after_fork then
        Event.print Msg.t4CowChild
      else
        Event.print Msg.t4WrongChild) ::
      [Event.exit]
    else
      let free_pages_after_fork := env.freePages 2
      let free_pages_after_modification := env.freePages 3
      Event.getNumFreePages free_pages_after_fork ::
      Event.print (Msg.t4FreePagesAfterForkParent free_pages_after_fork) ::
      Event.store parent_memory 0 'P' ::
      Event.print Msg.parentModified ::
      Event.getNumFreePages free_pages_after_modification ::
      Event.print (Msg.t4FreePagesAfterModParent free_pages_after_modification) ::
      (if free_pages_after_modification < free_pages_after_fork then
        Event.print Msg.t4CowParent
      else
        Event.print Msg.t4WrongParent) ::
      [Event.wait, Event.exit]

/-- Trace of `main` of `src/testcow.c`, translated statement by statement.
Unlike `test4.c`, the post-fork measurement and its print happen before the
pid branch, and both branches use the strict `<` comparison with identical
message texts. -/
def testcow_main (env : Env) : List Event :=
  let initial_free_pages := env.freePages 0
  let parent_memory := env.mallocRet
  Event.getNumFreePages initial_free_pages ::
  Event.print (Msg.initialFreePages initial_free_pages) ::
  Event.malloc 4096 parent_memory ::
  if parent_memory = 0 then
    [Event.print Msg.memAllocFailed, Event.exit]
  else
    let free_pages_after_alloc := env.freePages 1
    let pid := env.forkRet
    Event.getNumFreePages free_pages_after_alloc ::
    Event.print (Msg.freePagesAfterAlloc free_pages_after_alloc) ::
    Event.fork pid ::
    if pid < 0 then
      [Event.print Msg.forkFailed, Event.exit]
    else
      let free_pages_after_fork := env.freePages 2
      Event.getNumFreePages free_pages_after_fork ::
      Event.print (Msg.tcFreePagesAfterFork free_pages_after_fork) ::
      if pid = 0 then
        let free_pages_after_modification := env.freePages 3
        Event.store parent_memory 0 'C' ::
        Event.print Msg.childModified ::
        Event.getNumFreePages free_pages_after_modification ::
        Event.print (Msg.tcFreePagesAfterMod free_pages_after_modification) ::
        (if free_pages_after_modification < free_pages_after_fork then
          Event.print Msg.tcCow
        else
          Event.print Msg.tcWrong) ::
        [Event.exit]
      else
        let free_pages_after_modification := env.freePages 3
        Event.store parent_memory 0 'P' ::
        Event.print Msg.parentModified ::
        Event.getNumFreePages free_pages_after_modification ::
        Event.print (Msg.tcFreePagesAfterMod free_pages_after_modification) ::
        (if free_pages_after_modification < free_pages_after_fork then
          Event.print Msg.tcCow
        else
          Event.print Msg.tcWrong) ::
        [Event.wait, Event.exit]

/-- Whether a message is one of the COW-success verdicts
(test4 child, test4 parent, or testcow). -/
def isSuccessVerdict : Msg → Bool
  | .t4CowChild => true
  | .t4CowParent => true
  | .tcCow => true
  | _ => false

/-- Whether a message is one of the something-went-wrong verdicts. -/
def isFailureVerdict : Msg → Bool
  | .t4WrongChild => true
  | .t4WrongParent => true
  | .tcWrong => true
  | _ => false

/-- Whether an event prints a verdict (success or failure). -/
def isVerdictEvent : Event → Bool
  | Event.print m => isSuccessVerdict m || isFailureVerdict m
  | _ => false

/-- Whether an event prints a COW-success verdict. -/
def isSuccessEvent : Event → Bool
  | Event.print m => isSuccessVerdict m
  | _ => false

/-- Whether an event prints a something-went-wrong verdict. -/
def isFailureEvent : Event → Bool
  | Event.print m => isFailureVerdict m
  | _ => false

/-- Whether an event is a store into the buffer. -/
def isStore : Event → Bool
  | Event.store _ _ _ => true
  | _ => false

/-- Whether an event is the `wait()` call. -/
def isWait : Event → Bool
  | Event.wait => true
  | _ => false

/-- Whether an event is the `exit()` call. -/
def isExit : Event → Bool
  | Event.exit => true
  | _ => false

/-- Whether an event prints the allocation-failure message. -/
def isMallocFailPrint : Event → Bool
  | Event.print Msg.memAllocFailed => true
  | _ => false

/-- Whether an event prints the fork-failure message. -/
def isForkFailPrint : Event → Bool
  | Event.print Msg.forkFailed => true
  | _ => false

/-- Whether an event prints one of the two failure messages. -/
def isFailurePrint (e : Event) : Bool :=
  isMallocFailPrint e || isForkFailPrint e

/-- Verdict observed in a trace: `some true` if a COW-success message was
printed, `some false` if a something-went-wrong message was printed (and no
success message), `none` if neither. -/
def verdict (tr : List Event) : Option Bool :=
  if tr.any isSuccessEvent then some true
  else if tr.any isFailureEvent then some false
  else none

/-- Which of the four control-flow cases a trace took, read off from the
observable events: an allocation-failure print, a fork-failure print, the
presence of `wait()` (parent), or none of those (child). -/
inductive Branch where
  | mallocFail
  | forkFail
  | child
  | parent
  deriving DecidableEq, Repr

/-- Branch classification of a trace. -/
def tookBranch (tr : List Event) : Branch :=
  if tr.any isMallocFailPrint then Branch.mallocFail
  else if tr.any isForkFailPrint then Branch.forkFail
  else if tr.any isWait then Branch.parent
  else Branch.child

/-- Kinds of operation the spec's step list mentions: a free-page
measurement, the 4KB allocation, the fork, the one-byte write, and the
verdict print.  Other events (informational prints, sleep, wait, exit) are
not classified. -/
inductive OpKind where
  | measure
  | alloc (size : Nat)
  | forkCall
  | writeByte
  | verdictReport
  deriving DecidableEq, Repr

/-- Operation kind of an event, `none` for events outside the spec's step
list. -/
def opKind : Event → Option OpKind
  | Event.getNumFreePages _ => some OpKind.measure
  | Event.malloc n _ => some (OpKind.alloc n)
  | Event.fork _ => some OpKind.forkCall
  | Event.store _ _ _ => some OpKind.writeByte
  | Event.print m =>
      if isSuccessVerdict m || isFailureVerdict m then some OpKind.verdictReport
      else none
  | _ => none

/-- Sequence of classified operations of a trace. -/
def ops (tr : List Event) : List OpKind := tr.filterMap opKind

/-- Suffix of a trace strictly after its first failure print (the whole
trace if there is none). -/
def afterFirstFailurePrint (tr : List Event) : List Event :=
  (tr.dropWhile (fun e => !isFailurePrint e)).tail

/-- Whether a trace ends with a verdict print, then `wait()`, then
`exit()`, in that order. -/
def endsWithVerdictWaitExit (tr : List Event) : Bool :=
  match tr.reverse with
  | e0 :: e1 :: e2 :: _ => isExit e0 && isWait e1 && isVerdictEvent e2
  | _ => false

/-- Concrete environment: malloc succeeds, fork returns 0 (child run),
post-fork count 100, post-write count 100 (no change). -/
def envChildEq : Env := ⟨fun _ => 100, 1, 0⟩

/-- Concrete environment: malloc succeeds, fork returns 0 (child run),
post-fork count 100, post-write count 99 (strict decrease). -/
def envChildDec : Env := ⟨fun i => if i = 3 then 99 else 100, 1, 0⟩

/-- Concrete environment: malloc succeeds, fork returns 1 (parent run),
post-fork count 100, post-write count 99 (strict decrease). -/
def envParentDec : Env := ⟨fun i => if i = 3 then 99 else 100, 1, 1⟩

/-- Concrete environment: malloc fails. -/
def envMallocFail : Env := ⟨fun _ => 100, 0, 1⟩

/-- Concrete environment: like `envParentDec` but with different results for
the first two measurements (baseline and post-allocation). -/
def envParentDecNoisy : Env :=
  ⟨fun i => if i ≤ 1 then 500 else if i = 3 then 99 else 100, 1, 1⟩

lemma test4_main_mallocFail (env : Env) (hm : env.mallocRet = 0) :
    test4_main env =
      [Event.getNumFreePages (env.freePages 0),
       Event.print (Msg.initialFreePages (env.freePages 0)),
       Event.malloc 4096 env.mallocRet,
       Event.print Msg.memAllocFailed, Event.exit] := by
  unfold test4_main
  simp [hm]

lemma test4_main_forkFail (env : Env) (hm : env.mallocRet ≠ 0)
    (hneg : env.forkRet < 0) :
    test4_main env =
      [Event.getNumFreePages (env.freePages 0),
       Event.print (Msg.initialFreePages (env.freePages 0)),
       Event.malloc 4096 env.mallocRet,
       Event.getNumFreePages (env.freePages 1),
       Event.print (Msg.freePagesAfterAlloc (env.freePages 1)),
       Event.fork env.forkRet,
       Event.print Msg.forkFailed, Event.exit] := by
  unfold test4_main
  simp [hm, hneg]

lemma test4_main_child (env : Env) (hm : env.mallocRet ≠ 0)
    (h0 : env.forkRet = 0) :
    test4_main env =
      [Event.getNumFreePages (env.freePages 0),
       Event.print (Msg.initialFreePages (env.freePages 0)),
       Event.malloc 4096 env.mallocRet,
       Event.getNumFreePages (env.freePages 1),
       Event.print (Msg.freePagesAfterAlloc (env.freePages 1)),
       Event.fork env.forkRet,
       Event.getNumFreePages (env.freePages 2),
       Event.sleep 10,
       Event.print (Msg.t4FreePagesAfterForkChild (env.freePages 2)),
       Event.store env.mallocRet 0 'C',
       Event.print Msg.childModified,
       Event.getNumFreePages (env.freePages 3),
       Event.print (Msg.t4FreePagesAfterModChild (env.freePages 3)),
       (if env.freePages 3 = env.freePages 2 then Event.print Msg.t4CowChild
        else Event.print Msg.t4WrongChild),
       Event.exit] := by
  unfold test4_main
  have hneg : ¬ env.forkRet < 0 := by omega
  simp [hm, hneg, h0]

lemma test4_main_parent (env : Env) (hm : env.mallocRet ≠ 0)
    (hp : 0 < env.forkRet) :
    test4_main env =
      [Event.getNumFreePages (env.freePages 0),
       Event.print (Msg.initialFreePages (env.freePages 0)),
       Event.malloc 4096 env.mallocRet,
       Event.getNumFreePages (env.freePages 1),
       Event.print (Msg.freePagesAfterAlloc (env.freePages 1)),
       Event.fork env.forkRet,
       Event.getNumFreePages (env.freePages 2),
       Event.print (Msg.t4FreePagesAfterForkParent (env.freePages 2)),
       Event.store env.mallocRet 0 'P',
       Event.print Msg.parentModified,
       Event.getNumFreePages (env.freePages 3),
       Event.print (Msg.t4FreePagesAfterModParent (env.freePages 3)),
       (if env.freePages 3 < env.freePages 2 then Event.print Msg.t4CowParent
        else Event.print Msg.t4WrongParent),
       Event.wait, Event.exit] := by
  unfold test4_main
  have hneg : ¬ env.forkRet < 0 := by omega
  have h0 : ¬ env.forkRet = 0 := by omega
  simp [hm, hneg, h0]

lemma testcow_main_mallocFail (env : Env) (hm : env.mallocRet = 0) :
    testcow_main env =
      [Event.getNumFreePages (env.freePages 0),
       Event.print (Msg.initialFreePages (env.freePages 0)),
       Event.malloc 4096 env.mallocRet,
       Event.print Msg.memAllocFailed, Event.exit] := by
  unfold testcow_main
  simp [hm]

lemma testcow_main_forkFail (env : Env) (hm : env.mallocRet ≠ 0)
    (hneg : env.forkRet < 0) :
    testcow_main env =
      [Event.getNumFreePages (env.freePages 0),
       Event.print (Msg.initialFreePages (env.freePages 0)),
       Event.malloc 4096 env.mallocRet,
       Event.getNumFreePages (env.freePages 1),
       Event.print (Msg.freePagesAfterAlloc (env.freePages 1)),
       Event.fork env.forkRet,
       Event.print Msg.forkFailed, Event.exit] := by
  unfold testcow_main
  simp [hm, hneg]

lemma testcow_main_child (env : Env) (hm : env.mallocRet ≠ 0)
    (h0 : env.forkRet = 0) :
    testcow_main env =
      [Event.getNumFreePages (env.freePages 0),
       Event.print (Msg.initialFreePages (env.freePages 0)),
       Event.malloc 4096 env.mallocRet,
       Event.getNumFreePages (env.freePages 1),
       Event.print (Msg.freePagesAfterAlloc (env.freePages 1)),
       Event.fork env.forkRet,
       Event.getNumFreePages (env.freePages 2),
       Event.print (Msg.tcFreePagesAfterFork (env.freePages 2)),
       Event.store env.mallocRet 0 'C',
       Event.print Msg.childModified,
       Event.getNumFreePages (env.freePages 3),
       Event.print (Msg.tcFreePagesAfterMod (env.freePages 3)),
       (if env.freePages 3 < env.freePages 2 then Event.print Msg.tcCow
        else Event.print Msg.tcWrong),
       Event.exit] := by
  unfold testcow_main
  have hneg : ¬ env.forkRet < 0 := by omega
  simp [hm, hneg, h0]

lemma testcow_main_parent (env : Env) (hm : env.mallocRet ≠ 0)
    (hp : 0 < env.forkRet) :
    testcow_main env =
      [Event.getNumFreePages (env.freePages 0),
       Event.print (Msg.initialFreePages (env.freePages 0)),
       Event.malloc 4096 env.mallocRet,
       Event.getNumFreePages (env.freePages 1),
       Event.print (Msg.freePagesAfterAlloc (env.freePages 1)),
       Event.fork env.forkRet,
       Event.getNumFreePages (env.freePages 2),
       Event.print (Msg.tcFreePagesAfterFork (env.freePages 2)),
       Event.store env.mallocRet 0 'P',
       Event.print Msg.parentModified,
       Event.getNumFreePages (env.freePages 3),
       Event.print (Msg.tcFreePagesAfterMod (env.freePages 3)),
       (if env.freePages 3 < env.freePages 2 then Event.print Msg.tcCow
        else Event.print Msg.tcWrong),
       Event.wait, Event.exit] := by
  unfold testcow_main
  have hneg : ¬ env.forkRet < 0 := by omega
  have h0 : ¬ env.forkRet = 0 := by omega
  simp [hm, hneg, h0]

lemma verdict_test4_mallocFail (env : Env) (hm : env.mallocRet = 0) :
    verdict (test4_main env) = none := by
  rw [test4_main_mallocFail env hm]
  simp [verdict, isSuccessEvent, isFailureEvent, isSuccessVerdict, isFailureVerdict]

lemma verdict_test4_forkFail (env : Env) (hm : env.mallocRet ≠ 0)
    (hneg : env.forkRet < 0) :
    verdict (test4_main env) = none := by
  rw [test4_main_forkFail env hm hneg]
  simp [verdict, isSuccessEvent, isFailureEvent, isSuccessVerdict, isFailureVerdict]

lemma verdict_test4_child (env : Env) (hm : env.mallocRet ≠ 0)
    (h0 : env.forkRet = 0) :
    verdict (test4_main env) = some (decide (env.freePages 3 = env.freePages 2)) := by
  rw [test4_main_child env hm h0]
  by_cases hv : env.freePages 3 = env.freePages 2 <;>
    simp [verdict, isSuccessEvent, isFailureEvent, isSuccessVerdict, isFailureVerdict, hv]

lemma verdict_test4_parent (env : Env) (hm : env.mallocRet ≠ 0)
    (hp : 0 < env.forkRet) :
    verdict (test4_main env) = some (decide (env.freePages 3 < env.freePages 2)) := by
  rw [test4_main_parent env hm hp]
  by_cases hv : env.freePages 3 < env.freePages 2 <;>
    simp [verdict, isSuccessEvent, isFailureEvent, isSuccessVerdict, isFailureVerdict, hv]

lemma verdict_testcow_mallocFail (env : Env) (hm : env.mallocRet = 0) :
    verdict (testcow_main env) = none := by
  rw [testcow_main_mallocFail env hm]
  simp [verdict, isSuccessEvent, isFailureEvent, isSuccessVerdict, isFailureVerdict]

lemma verdict_testcow_forkFail (env : Env) (hm : env.mallocRet ≠ 0)
    (hneg : env.forkRet < 0) :
    verdict (testcow_main env) = none := by
  rw [testcow_main_forkFail env hm hneg]
  simp [verdict, isSuccessEvent, isFailureEvent, isSuccessVerdict, isFailureVerdict]

lemma verdict_testcow_child (env : Env) (hm : env.mallocRet ≠ 0)
    (h0 : env.forkRet = 0) :
    verdict (testcow_main env) = some (decide (env.freePages 3 < env.freePages 2)) := by
  rw [testcow_main_child env hm h0]
  by_cases hv : env.freePages 3 < env.freePages 2 <;>
    simp [verdict, isSuccessEvent, isFailureEvent, isSuccessVerdict, isFailureVerdict, hv]

lemma verdict_testcow_parent (env : Env) (hm : env.mallocRet ≠ 0)
    (hp : 0 < env.forkRet) :
    verdict (testcow_main env) = some (decide (env.freePages 3 < env.freePages 2)) := by
  rw [testcow_main_parent env hm hp]
  by_cases hv : env.freePages 3 < env.freePages 2 <;>
    simp [verdict, isSuccessEvent, isFailureEvent, isSuccessVerdict, isFailureVerdict, hv]

lemma tookBranch_test4 (env : Env) :
    tookBranch (test4_main env) =
      (if env.mallocRet = 0 then Branch.mallocFail
       else if env.forkRet < 0 then Branch.forkFail
       else if env.forkRet = 0 then Branch.child
       else Branch.parent) := by
  by_cases hm : env.mallocRet = 0
  · rw [test4_main_mallocFail env hm]
    simp [tookBranch, isMallocFailPrint, isForkFailPrint, isWait, hm]
  · by_cases hneg : env.forkRet < 0
    · rw [test4_main_forkFail env hm hneg]
      simp [tookBranch, isMallocFailPrint, isForkFailPrint, isWait, hm, hneg]
    · by_cases h0 : env.forkRet = 0
      · rw [test4_main_child env hm h0]
        by_cases hv : env.freePages 3 = env.freePages 2 <;>
          simp [tookBranch, isMallocFailPrint, isForkFailPrint, isWait, hm, hneg, h0, hv]
      · have hp : 0 < env.forkRet := by omega
        rw [test4_main_parent env hm hp]
        by_cases hv : env.freePages 3 < env.freePages 2 <;>
          simp [tookBranch, isMallocFailPrint, isForkFailPrint, isWait, hm, hneg, h0, hv]

lemma tookBranch_testcow (env : Env) :
    tookBranch (testcow_main env) =
      (if env.mallocRet = 0 then Branch.mallocFail
       else if env.forkRet < 0 then Branch.forkFail
       else if env.forkRet = 0 then Branch.child
       else Branch.parent) := by
  by_cases hm : env.mallocRet = 0
  · rw [testcow_main_mallocFail env hm]
    simp [tookBranch, isMallocFailPrint, isForkFailPrint, isWait, hm]
  · by_cases hneg : env.forkRet < 0
    · rw [testcow_main_forkFail env hm hneg]
      simp [tookBranch, isMallocFailPrint, isForkFailPrint, isWait, hm, hneg]
    · by_cases h0 : env.forkRet = 0
      · rw [testcow_main_child env hm h0]
        by_cases hv : env.freePages 3 < env.freePages 2 <;>
          simp [tookBranch, isMallocFailPrint, isForkFailPrint, isWait, hm, hneg, h0, hv]
      · have hp : 0 < env.forkRet := by omega
        rw [testcow_main_parent env hm hp]
        by_cases hv : env.freePages 3 < env.freePages 2 <;>
          simp [tookBranch, isMallocFailPrint, isForkFailPrint, isWait, hm, hneg, h0, hv]

/-- C1: in a child run (malloc succeeded, fork returned 0), test4.c prints
its COW-success message iff the post-write free-page count equals the
post-fork count, while testcow.c prints its COW-success message iff the
post-write count is strictly less than the post-fork count: the two test
files disagree on the child-side success condition. -/
theorem C1_child_success_conditions_disagree (env : Env)
    (hm : env.mallocRet ≠ 0) (h0 : env.forkRet = 0) :
    (Event.print Msg.t4CowChild ∈ test4_main env ↔
       env.freePages 3 = env.freePages 2) ∧
    (Event.print Msg.tcCow ∈ testcow_main env ↔
       env.freePages 3 < env.freePages 2) := by
  constructor
  · rw [test4_main_child env hm h0]
    by_cases hv : env.freePages 3 = env.freePages 2 <;> simp [hv]
  · rw [testcow_main_child env hm h0]
    by_cases hv : env.freePages 3 < env.freePages 2 <;> simp [hv]

/-- Witness for C1 at a concrete child environment with equal counts. -/
theorem C1_child_success_conditions_disagree_witness :
    (Event.print Msg.t4CowChild ∈ test4_main envChildEq ↔
       envChildEq.freePages 3 = envChildEq.freePages 2) ∧
    (Event.print Msg.tcCow ∈ testcow_main envChildEq ↔
       envChildEq.freePages 3 < envChildEq.freePages 2) :=
  C1_child_success_conditions_disagree envChildEq (by decide) (by decide)

/-- C2 counterexample: with malloc succeeding, fork returning 0, post-fork
count 100 and post-write count 99, the test4.c child prints the failure
verdict while the testcow.c child prints the COW-success verdict, so the two
programs do not produce the same printed verdict on every external-call
result sequence. -/
theorem C2_programs_equivalent_counterexample :
    verdict (test4_main envChildDec) = some false ∧
    verdict (testcow_main envChildDec) = some true := by
  constructor
  · rw [verdict_test4_child envChildDec (by decide) (by decide)]
    decide
  · rw [verdict_testcow_child envChildDec (by decide) (by decide)]
    decide

/-- C2 amended: the two programs always take the same branch, and their
verdicts agree except in a successful-fork child run, where test4.c's
verdict is the equality test and testcow.c's is the strict-less test on the
two post-fork counts (so they disagree whenever the post-write count is at
most the post-fork count). -/
theorem C2_equivalent_except_child_verdict (env : Env) :
    tookBranch (test4_main env) = tookBranch (testcow_main env) ∧
    (verdict (test4_main env) = verdict (testcow_main env) ∨
     (env.mallocRet ≠ 0 ∧ env.forkRet = 0 ∧
      verdict (test4_main env) = some (decide (env.freePages 3 = env.freePages 2)) ∧
      verdict (testcow_main env) = some (decide (env.freePages 3 < env.freePages 2)))) := by
  refine ⟨by rw [tookBranch_test4, tookBranch_testcow], ?_⟩
  by_cases hm : env.mallocRet = 0
  · exact Or.inl (by
      rw [verdict_test4_mallocFail env hm, verdict_testcow_mallocFail env hm])
  · by_cases hneg : env.forkRet < 0
    · exact Or.inl (by
        rw [verdict_test4_forkFail env hm hneg, verdict_testcow_forkFail env hm hneg])
    · by_cases h0 : env.forkRet = 0
      · exact Or.inr ⟨hm, h0, verdict_test4_child env hm h0,
          verdict_testcow_child env hm h0⟩
      · have hp : 0 < env.forkRet := by omega
        exact Or.inl (by
          rw [verdict_test4_parent env hm hp, verdict_testcow_parent env hm hp])

/-- C3: whenever malloc succeeds and fork does not fail, both programs
perform, in order: a measurement, the 4096-byte allocation, a measurement,
the fork, a measurement, the one-byte write, a measurement, and the verdict
print. -/
theorem C3_operation_order (env : Env) (hm : env.mallocRet ≠ 0)
    (hf : 0 ≤ env.forkRet) :
    ops (test4_main env) =
      [OpKind.measure, OpKind.alloc 4096, OpKind.measure, OpKind.forkCall,
       OpKind.measure, OpKind.writeByte, OpKind.measure, OpKind.verdictReport] ∧
    ops (testcow_main env) =
      [OpKind.measure, OpKind.alloc 4096, OpKind.measure, OpKind.forkCall,
       OpKind.measure, OpKind.writeByte, OpKind.measure, OpKind.verdictReport] := by
  by_cases h0 : env.forkRet = 0
  · constructor
    · rw [test4_main_child env hm h0]
      by_cases hv : env.freePages 3 = env.freePages 2 <;>
        simp [ops, List.filterMap_cons, opKind, isSuccessVerdict, isFailureVerdict, hv]
    · rw [testcow_main_child env hm h0]
      by_cases hv : env.freePages 3 < env.freePages 2 <;>
        simp [ops, List.filterMap_cons, opKind, isSuccessVerdict, isFailureVerdict, hv]
  · have hp : 0 < env.forkRet := by omega
    constructor
    · rw [test4_main_parent env hm hp]
      by_cases hv : env.freePages 3 < env.freePages 2 <;>
        simp [ops, List.filterMap_cons, opKind, isSuccessVerdict, isFailureVerdict, hv]
    · rw [testcow_main_parent env hm hp]
      by_cases hv : env.freePages 3 < env.freePages 2 <;>
        simp [ops, List.filterMap_cons, opKind, isSuccessVerdict, isFailureVerdict, hv]

/-- Witness for C3 at a concrete parent environment. -/
theorem C3_operation_order_witness :
    ops (test4_main envParentDec) =
      [OpKind.measure, OpKind.alloc 4096, OpKind.measure, OpKind.forkCall,
       OpKind.measure, OpKind.writeByte, OpKind.measure, OpKind.verdictReport] ∧
    ops (testcow_main envParentDec) =
      [OpKind.measure, OpKind.alloc 4096, OpKind.measure, OpKind.forkCall,
       OpKind.measure, OpKind.writeByte, OpKind.measure, OpKind.verdictReport] :=
  C3_operation_order envParentDec (by decide) (by decide)

/-- C4: under the COW contract (the post-write count is strictly below the
post-fork count, malloc having succeeded), the parent branch of both
programs prints its COW-success message, and the child branch of testcow.c
prints its COW-success message. -/
theorem C4_cow_contract_success (env : Env) (hm : env.mallocRet ≠ 0)
    (hlt : env.freePages 3 < env.freePages 2) :
    (0 < env.forkRet →
       Event.print Msg.t4CowParent ∈ test4_main env ∧
       Event.print Msg.tcCow ∈ testcow_main env) ∧
    (env.forkRet = 0 → Event.print Msg.tcCow ∈ testcow_main env) := by
  constructor
  · intro hp
    constructor
    · rw [test4_main_parent env hm hp]
      simp [hlt]
    · rw [testcow_main_parent env hm hp]
      simp [hlt]
  · intro h0
    rw [testcow_main_child env hm h0]
    simp [hlt]

/-- Witness for C4 at a concrete parent environment with a strict decrease. -/
theorem C4_cow_contract_success_witness :
    Event.print Msg.t4CowParent ∈ test4_main envParentDec ∧
    Event.print Msg.tcCow ∈ testcow_main envParentDec :=
  (C4_cow_contract_success envParentDec (by decide) (by decide)).1 (by decide)

/-- C5: on a malloc failure or a fork failure, both programs print exactly
one failure message, and the only event after it is the `exit()` call: no
further measurement, fork, buffer write, or `wait()` happens. -/
theorem C5_failure_paths_print_and_exit (env : Env)
    (h : env.mallocRet = 0 ∨ env.forkRet < 0) :
    ((test4_main env).countP isFailurePrint = 1 ∧
     afterFirstFailurePrint (test4_main env) = [Event.exit]) ∧
    ((testcow_main env).countP isFailurePrint = 1 ∧
     afterFirstFailurePrint (testcow_main env) = [Event.exit]) := by
  by_cases hm : env.mallocRet = 0
  · rw [test4_main_mallocFail env hm, testcow_main_mallocFail env hm]
    constructor <;> constructor <;>
      simp [List.countP_cons, List.countP_nil, afterFirstFailurePrint,
        List.dropWhile_cons, isFailurePrint, isMallocFailPrint, isForkFailPrint]
  · have hneg : env.forkRet < 0 := by
      rcases h with h | h
      · exact absurd h hm
      · exact h
    rw [test4_main_forkFail env hm hneg, testcow_main_forkFail env hm hneg]
    constructor <;> constructor <;>
      simp [List.countP_cons, List.countP_nil, afterFirstFailurePrint,
        List.dropWhile_cons, isFailurePrint, isMallocFailPrint, isForkFailPrint]

/-- Witness for C5 at a concrete environment where malloc fails. -/
theorem C5_failure_paths_print_and_exit_witness :
    ((test4_main envMallocFail).countP isFailurePrint = 1 ∧
     afterFirstFailurePrint (test4_main envMallocFail) = [Event.exit]) ∧
    ((testcow_main envMallocFail).countP isFailurePrint = 1 ∧
     afterFirstFailurePrint (testcow_main envMallocFail) = [Event.exit]) :=
  C5_failure_paths_print_and_exit envMallocFail (Or.inl (by decide))

/-- C6: in every run of either program, at most one store into the buffer
happens, and any store that happens is the one-byte store at offset 0 of the
character matching the branch: 'C' in a child run, 'P' otherwise.  In
particular the other 4095 bytes of the buffer are never written. -/
theorem C6_at_most_one_byte_written (env : Env) :
    ((test4_main env).countP isStore ≤ 1 ∧
     (test4_main env).all (fun e => !isStore e ||
        e == Event.store env.mallocRet 0 (if env.forkRet = 0 then 'C' else 'P')) = true) ∧
    ((testcow_main env).countP isStore ≤ 1 ∧
     (testcow_main env).all (fun e => !isStore e ||
        e == Event.store env.mallocRet 0 (if env.forkRet = 0 then 'C' else 'P')) = true) := by
  by_cases hm : env.mallocRet = 0
  · rw [test4_main_mallocFail env hm, testcow_main_mallocFail env hm]
    simp [isStore, List.countP_cons, List.countP_nil, List.all_cons, List.all_nil]
  · by_cases hneg : env.forkRet < 0
    · rw [test4_main_forkFail env hm hneg, testcow_main_forkFail env hm hneg]
      simp [isStore, List.countP_cons, List.countP_nil, List.all_cons, List.all_nil]
    · by_cases h0 : env.forkRet = 0
      · rw [test4_main_child env hm h0, testcow_main_child env hm h0]
        by_cases hv1 : env.freePages 3 = env.freePages 2 <;>
        by_cases hv2 : env.freePages 3 < env.freePages 2 <;>
          simp [isStore, h0, hv1, hv2, List.countP_cons, List.countP_nil,
            List.all_cons, List.all_nil]
      · have hp : 0 < env.forkRet := by omega
        rw [test4_main_parent env hm hp, testcow_main_parent env hm hp]
        by_cases hv : env.freePages 3 < env.freePages 2 <;>
          simp [isStore, h0, hv, List.countP_cons, List.countP_nil,
            List.all_cons, List.all_nil]

/-- C7: when malloc succeeds and fork does not fail, a child run performs no
`wait()` in either program, and a parent run performs exactly one `wait()`,
placed right after the verdict print and right before the final `exit()`. -/
theorem C7_parent_waits_once_after_verdict (env : Env) (hm : env.mallocRet ≠ 0)
    (hf : 0 ≤ env.forkRet) :
    (test4_main env).countP isWait = (if env.forkRet = 0 then 0 else 1) ∧
    (testcow_main env).countP isWait = (if env.forkRet = 0 then 0 else 1) ∧
    endsWithVerdictWaitExit (test4_main env) = decide (env.forkRet ≠ 0) ∧
    endsWithVerdictWaitExit (testcow_main env) = decide (env.forkRet ≠ 0) := by
  by_cases h0 : env.forkRet = 0
  · rw [test4_main_child env hm h0, testcow_main_child env hm h0]
    by_cases hv1 : env.freePages 3 = env.freePages 2 <;>
    by_cases hv2 : env.freePages 3 < env.freePages 2 <;>
      simp [isWait, isExit, isVerdictEvent, isSuccessVerdict, isFailureVerdict,
        h0, hv1, hv2, List.countP_cons, List.countP_nil,
        endsWithVerdictWaitExit]
  · have hp : 0 < env.forkRet := by omega
    rw [test4_main_parent env hm hp, testcow_main_parent env hm hp]
    by_cases hv : env.freePages 3 < env.freePages 2 <;>
      simp [isWait, isExit, isVerdictEvent, isSuccessVerdict, isFailureVerdict,
        h0, hv, List.countP_cons, List.countP_nil,
        endsWithVerdictWaitExit]

/-- Witness for C7 at concrete child and parent environments. -/
theorem C7_parent_waits_once_after_verdict_witness :
    (test4_main envChildEq).countP isWait = (if envChildEq.forkRet = 0 then 0 else 1) ∧
    endsWithVerdictWaitExit (testcow_main envParentDec) = decide (envParentDec.forkRet ≠ 0) :=
  ⟨(C7_parent_waits_once_after_verdict envChildEq (by decide) (by decide)).1,
   (C7_parent_waits_once_after_verdict envParentDec (by decide) (by decide)).2.2.2⟩

/-- C8: every run of either program ends with the `exit()` event, and
`exit()` happens exactly once, on failure paths and success paths alike;
`main` never falls off the end without exiting. -/
theorem C8_every_path_ends_in_exit (env : Env) :
    (test4_main env).getLast? = some Event.exit ∧
    (test4_main env).countP isExit = 1 ∧
    (testcow_main env).getLast? = some Event.exit ∧
    (testcow_main env).countP isExit = 1 := by
  by_cases hm : env.mallocRet = 0
  · rw [test4_main_mallocFail env hm, testcow_main_mallocFail env hm]
    simp [isExit, List.countP_cons, List.countP_nil]
  · by_cases hneg : env.forkRet < 0
    · rw [test4_main_forkFail env hm hneg, testcow_main_forkFail env hm hneg]
      simp [isExit, List.countP_cons, List.countP_nil]
    · by_cases h0 : env.forkRet = 0
      · rw [test4_main_child env hm h0, testcow_main_child env hm h0]
        by_cases hv1 : env.freePages 3 = env.freePages 2 <;>
        by_cases hv2 : env.freePages 3 < env.freePages 2 <;>
          simp [isExit, hv1, hv2, List.countP_cons, List.countP_nil]
      · have hp : 0 < env.forkRet := by omega
        rw [test4_main_parent env hm hp, testcow_main_parent env hm hp]
        by_cases hv : env.freePages 3 < env.freePages 2 <;>
          simp [isExit, hv, List.countP_cons, List.countP_nil]

/-- C9: the verdict of a run of either program is unchanged between two
environments that agree on the malloc result, the fork result, and the two
post-fork measurements — in particular between two runs that differ only in
the first two (baseline and post-allocation) measurements. -/
theorem C9_verdict_ignores_first_two_measurements (e1 e2 : Env)
    (hmall : e1.mallocRet = e2.mallocRet) (hfork : e1.forkRet = e2.forkRet)
    (h2 : e1.freePages 2 = e2.freePages 2) (h3 : e1.freePages 3 = e2.freePages 3) :
    verdict (test4_main e1) = verdict (test4_main e2) ∧
    verdict (testcow_main e1) = verdict (testcow_main e2) := by
  by_cases hm : e1.mallocRet = 0
  · have hm2 : e2.mallocRet = 0 := hmall ▸ hm
    rw [verdict_test4_mallocFail e1 hm, verdict_test4_mallocFail e2 hm2,
      verdict_testcow_mallocFail e1 hm, verdict_testcow_mallocFail e2 hm2]
    exact ⟨rfl, rfl⟩
  · have hm2 : e2.mallocRet ≠ 0 := hmall ▸ hm
    by_cases hneg : e1.forkRet < 0
    · have hneg2 : e2.forkRet < 0 := hfork ▸ hneg
      rw [verdict_test4_forkFail e1 hm hneg, verdict_test4_forkFail e2 hm2 hneg2,
        verdict_testcow_forkFail e1 hm hneg, verdict_testcow_forkFail e2 hm2 hneg2]
      exact ⟨rfl, rfl⟩
    · by_cases h0 : e1.forkRet = 0
      · have h02 : e2.forkRet = 0 := hfork ▸ h0
        rw [verdict_test4_child e1 hm h0, verdict_test4_child e2 hm2 h02,
          verdict_testcow_child e1 hm h0, verdict_testcow_child e2 hm2 h02,
          h2, h3]
        exact ⟨rfl, rfl⟩
      · have hp : 0 < e1.forkRet := by omega
        have hp2 : 0 < e2.forkRet := hfork ▸ hp
        rw [verdict_test4_parent e1 hm hp, verdict_test4_parent e2 hm2 hp2,
          verdict_testcow_parent e1 hm hp, verdict_testcow_parent e2 hm2 hp2,
          h2, h3]
        exact ⟨rfl, rfl⟩

/-- Witness for C9 at two concrete parent environments that differ only in
the first two measurements (100 versus 500). -/
theorem C9_verdict_ignores_first_two_measurements_witness :
    verdict (test4_main envParentDec) = verdict (test4_main envParentDecNoisy) ∧
    verdict (testcow_main envParentDec) = verdict (testcow_main envParentDecNoisy) :=
  C9_verdict_ignores_first_two_measurements envParentDec envParentDecNoisy
    (by decide) (by decide) (by decide) (by decide)

/-- C10: when malloc succeeds and fork does not fail, each run of either
program prints exactly one verdict message in total: one success message or
one failure message, never both and never neither. -/
theorem C10_exactly_one_verdict_printed (env : Env) (hm : env.mallocRet ≠ 0)
    (hf : 0 ≤ env.forkRet) :
    (test4_main env).countP isSuccessEvent + (test4_main env).countP isFailureEvent = 1 ∧
    (testcow_main env).countP isSuccessEvent + (testcow_main env).countP isFailureEvent = 1 := by
  by_cases h0 : env.forkRet = 0
  · rw [test4_main_child env hm h0, testcow_main_child env hm h0]
    by_cases hv1 : env.freePages 3 = env.freePages 2 <;>
    by_cases hv2 : env.freePages 3 < env.freePages 2 <;>
      simp [isSuccessEvent, isFailureEvent, isSuccessVerdict, isFailureVerdict,
        hv1, hv2, List.countP_cons, List.countP_nil]
  · have hp : 0 < env.forkRet := by omega
    rw [test4_main_parent env hm hp, testcow_main_parent env hm hp]
    by_cases hv : env.freePages 3 < env.freePages 2 <;>
      simp [isSuccessEvent, isFailureEvent, isSuccessVerdict, isFailureVerdict,
        hv, List.countP_cons, List.countP_nil]

/-- Witness for C10 at a concrete parent environment. -/
theorem C10_exactly_one_verdict_printed_witness :
    (test4_main envParentDec).countP isSuccessEvent +
      (test4_main envParentDec).countP isFailureEvent = 1 ∧
    (testcow_main envParentDec).countP isSuccessEvent +
      (testcow_main envParentDec).countP isFailureEvent = 1 :=
  C10_exactly_one_verdict_printed envParentDec (by decide) (by decide)

end CowTests
